import Mathlib

/-!
Verification of the `ado_ai` CLI core against its specification.

Shallow embedding of the Python sources under `src/ado_ai_cli/`:
Python strings are modelled as `List Char` (`Str`), fallible calls as
`Except Exc`, numeric work/cost values as `ℚ`, and the tenacity retry
decorator as an explicit bounded retry loop.
-/

/-- Python strings, modelled character by character. -/
abbrev Str := List Char

/-- `needle` is a leading segment of `hay` (character-wise). -/
def strStartsWith : Str → Str → Bool
  | [], _ => true
  | _ :: _, [] => false
  | a :: as, b :: bs => a = b && strStartsWith as bs

/-- Python `needle in hay`: substring containment. -/
def strHasSub (needle : Str) : Str → Bool
  | [] => needle = ([] : Str)
  | b :: rest => strStartsWith needle (b :: rest) || strHasSub needle rest

/-- The `{` character (written by code point to keep literals simple). -/
def openBrace : Char := Char.ofNat 123

/-- The `}` character. -/
def closeBrace : Char := Char.ofNat 125

/-- Python `s.split(c)` for a one-character separator: splits on every
occurrence; `"".split(c) = [""]`. -/
def pySplitCh (c : Char) : Str → List Str
  | [] => [[]]
  | a :: rest =>
    if a = c then [] :: pySplitCh c rest
    else
      match pySplitCh c rest with
      | [] => [[a]]
      | h :: t => (a :: h) :: t

/-- Python `c.join(l)` for a one-character separator. -/
def pyJoinCh (c : Char) : List Str → Str
  | [] => []
  | [x] => x
  | x :: y :: t => x ++ c :: pyJoinCh c (y :: t)

theorem pySplitCh_ne_nil (c : Char) (s : Str) : pySplitCh c s ≠ [] := by
  induction s with
  | nil => simp [pySplitCh]
  | cons a rest ih =>
    simp only [pySplitCh]
    split
    · simp
    · cases h : pySplitCh c rest with
      | nil => simp
      | cons x t => simp

theorem mem_pySplitCh_not_mem (c : Char) (s : Str) :
    ∀ t ∈ pySplitCh c s, c ∉ t := by
  induction s with
  | nil => intro t ht; simp [pySplitCh] at ht; simp [ht]
  | cons a rest ih =>
    intro t ht
    simp only [pySplitCh] at ht
    split at ht
    · rcases List.mem_cons.mp ht with h | h
      · simp [h]
      · exact ih t h
    · rename_i hac
      cases hsp : pySplitCh c rest with
      | nil => exact absurd hsp (pySplitCh_ne_nil c rest)
      | cons x xs =>
        rw [hsp] at ht
        rcases List.mem_cons.mp ht with h | h
        · subst h
          intro hmem
          rcases List.mem_cons.mp hmem with h' | h'
          · exact hac h'.symm
          · exact ih x (by rw [hsp]; exact List.mem_cons_self x xs) h'
        · exact ih t (by rw [hsp]; exact List.mem_cons_of_mem x h)

theorem pySplitCh_no_sep (c : Char) (s : Str) (h : c ∉ s) :
    pySplitCh c s = [s] := by
  induction s with
  | nil => simp [pySplitCh]
  | cons a rest ih =>
    have hac : ¬ a = c := fun hh => h (by simp [hh])
    have hrest : c ∉ rest := fun hh => h (List.mem_cons_of_mem a hh)
    simp only [pySplitCh, if_neg hac, ih hrest]

theorem pySplitCh_append_sep (c : Char) (x r : Str) (hx : c ∉ x) :
    pySplitCh c (x ++ c :: r) = x :: pySplitCh c r := by
  induction x with
  | nil => simp [pySplitCh]
  | cons a as ih =>
    have hac : ¬ a = c := fun hh => hx (by simp [hh])
    have has : c ∉ as := fun hh => hx (List.mem_cons_of_mem a hh)
    simp only [List.cons_append, pySplitCh, if_neg hac, List.append_eq, ih has]

/-- Joining chunks that contain no separator and splitting again returns
the original chunks (nonempty chunk lists). -/
theorem pySplitCh_pyJoinCh (c : Char) (l : List Str) (hne : l ≠ [])
    (hsep : ∀ x ∈ l, c ∉ x) : pySplitCh c (pyJoinCh c l) = l := by
  induction l with
  | nil => exact absurd rfl hne
  | cons x xs ih =>
    cases xs with
    | nil =>
      simp only [pyJoinCh]
      exact pySplitCh_no_sep c x (hsep x (List.mem_cons_self x []))
    | cons y t =>
      have hx : c ∉ x := hsep x (List.mem_cons_self x (y :: t))
      simp only [pyJoinCh]
      rw [pySplitCh_append_sep c x (pyJoinCh c (y :: t)) hx]
      congr 1
      exact ih (by simp) (fun z hz => hsep z (List.mem_cons_of_mem x hz))

/-! ## Data model (`azure_devops/models.py`, `ai/claude_client.py`) -/

/-- Token usage tracking (`TokenUsage` in `ai/claude_client.py`). -/
structure TokenUsage where
  inputTokens : Nat := 0
  outputTokens : Nat := 0
deriving DecidableEq, Repr

/-- `TokenUsage.total_tokens`. -/
def TokenUsage.totalTokens (u : TokenUsage) : Nat :=
  u.inputTokens + u.outputTokens

/-- `TokenUsage.calculate_cost`: tier selected by case-insensitive substring
match on the model name; Opus $5/$25 per million tokens, Sonnet $1/$5,
anything else defaults to Opus pricing. -/
def TokenUsage.calculateCost (u : TokenUsage) (model : Str) : ℚ :=
  let lowered := model.map Char.toLower
  if strHasSub "opus".toList lowered then
    (u.inputTokens : ℚ) / 1000000 * 5 + (u.outputTokens : ℚ) / 1000000 * 25
  else if strHasSub "sonnet".toList lowered then
    (u.inputTokens : ℚ) / 1000000 * 1 + (u.outputTokens : ℚ) / 1000000 * 5
  else
    (u.inputTokens : ℚ) / 1000000 * 5 + (u.outputTokens : ℚ) / 1000000 * 25

/-- Work item model (`WorkItem` in `azure_devops/models.py`), restricted to
the fields the workflow reads. `tags` and `remainingWork` are optional as in
the source. -/
structure WorkItem where
  id : Int
  workItemType : Str := []
  title : Str := []
  state : Str := []
  tags : Option Str := none
  remainingWork : Option ℚ := none
  url : Option Str := none
deriving DecidableEq, Repr

/-- AI analysis result (`AnalysisResult` in `ai/claude_client.py`),
restricted to the fields the workflow reads. -/
structure AnalysisResult where
  analysis : Str := []
  solution : Str := []
  tasks : List Str := []
  risks : List Str := []
  suggestedStatus : Str := []
  suggestedRemainingWork : ℚ := 0
  comment : Str := []
  tokenUsage : TokenUsage := {}
deriving DecidableEq, Repr

/-- Update result (`UpdateWorkItemResult` in `azure_devops/models.py`). -/
structure UpdateWorkItemResult where
  success : Bool
  workItemId : Int
  updatedFields : List Str := []
  errorMessage : Option Str := none
deriving DecidableEq, Repr

/-! ## Update Diff Policy (`workflow.py`, `_build_update_fields`) -/

/-- The marker tag appended by the workflow. -/
def aiCompletedTag : Str := "AI-Completed".toList

/-- The field map built by `_build_update_fields`: a Python dict with at
most the three keys `System.State`, `Microsoft.VSTS.Scheduling.RemainingWork`
and `System.Tags`, here one `Option` per key. -/
structure UpdateFields where
  state : Option Str := none
  remainingWork : Option ℚ := none
  tags : Option Str := none
deriving DecidableEq, Repr

/-- `work_item.tags.split(";") if work_item.tags else []` — Python
truthiness: `None` and the empty string both give `[]`. -/
def existingTagsOf (tags : Option Str) : List Str :=
  match tags with
  | none => []
  | some s => if s = [] then [] else pySplitCh ';' s

/-- `WorkflowOrchestrator._build_update_fields`, transcribed condition by
condition from `core/workflow.py` lines 235-253. -/
def buildUpdateFields (wi : WorkItem) (a : AnalysisResult) : UpdateFields :=
  let stateField : Option Str :=
    if a.suggestedStatus ≠ [] ∧ a.suggestedStatus ≠ wi.state then
      some a.suggestedStatus
    else none
  let remainingField : Option ℚ :=
    if some a.suggestedRemainingWork ≠ wi.remainingWork then
      some a.suggestedRemainingWork
    else none
  let existingTags := existingTagsOf wi.tags
  let tagsField : Option Str :=
    if aiCompletedTag ∈ existingTags then none
    else some (pyJoinCh ';' (existingTags ++ [aiCompletedTag]))
  ⟨stateField, remainingField, tagsField⟩

/-! ## Exceptions (`utils/exceptions.py` and third-party exception classes) -/

/-- Decimal rendering of an integer, for interpolated messages. -/
def intToStr (i : Int) : Str := (toString i).toList

/-- Decimal rendering of a natural number. -/
def natToStr (n : Nat) : Str := (toString n).toList

/-- The exception universe crossed by the clients and the orchestrator.
`azureService` is the SDK's `AzureDevOpsServiceError`; `anthropicRateLimit`
and `anthropicApi` are the Anthropic SDK's `RateLimitError` and `APIError`
(the former is a subclass of the latter); the remaining constructors are the
application's own classes from `utils/exceptions.py`. -/
inductive Exc where
  | azureService (statusCode : Nat) (msg : Str)
  | workItemNotFound (workItemId : Int)
  | authenticationFailed (msg : Str)
  | azureDevOps (msg : Str)
  | anthropicRateLimit (retryAfter : Option Nat)
  | anthropicApi (msg : Str)
  | claudeApi (msg : Str)
  | rateLimit (retryAfter : Option Nat)
  | workflow (msg : Str)
  | other (msg : Str)
deriving DecidableEq, Repr

/-- Python `str(e)`: the message each exception class carries.
`RateLimitError.__init__` appends the retry hint only when `retry_after`
is truthy (so neither for `None` nor for `0`). -/
def Exc.str : Exc → Str
  | .azureService _ m => m
  | .workItemNotFound i =>
      "Work item ".toList ++ intToStr i ++ " not found".toList
  | .authenticationFailed m => m
  | .azureDevOps m => m
  | .anthropicRateLimit _ => []
  | .anthropicApi m => m
  | .claudeApi m => m
  | .rateLimit ra =>
      match ra with
      | some n =>
          if n ≠ 0 then
            "API rate limit exceeded. Retry after ".toList ++ natToStr n ++
              " seconds".toList
          else "API rate limit exceeded".toList
      | none => "API rate limit exceeded".toList
  | .workflow m => m
  | .other m => m

/-- `isinstance(e, AzureDevOpsServiceError)`: only the SDK service error
matches; the application's own `AzureDevOpsError` does not subclass it. -/
def Exc.isAzureServiceErr : Exc → Bool
  | .azureService _ _ => true
  | _ => false

/-- `isinstance(e, anthropic.APIError)`: the Anthropic `RateLimitError`
subclasses `APIError`; the application's `ClaudeAPIError`/`RateLimitError`
do not. -/
def Exc.isAnthropicApiErr : Exc → Bool
  | .anthropicApi _ => true
  | .anthropicRateLimit _ => true
  | _ => false

/-! ## The tenacity retry decorator

`@retry(retry=retry_if_exception_type(T), stop=stop_after_attempt(n),
wait=wait_exponential(...), reraise=True)`: run attempts `0, 1, ...`; after
a failing attempt, retry only when the raised exception satisfies the
predicate and fewer than `n` attempts were made; otherwise re-raise that
exception unchanged. The pair returned is the final outcome and the number
of attempts actually made. -/

def retryGo (pred : Exc → Bool) (attempt : Nat → Except Exc α) :
    Nat → Nat → Except Exc α × Nat
  | 0, i => (attempt i, i + 1)
  | fuel + 1, i =>
    match attempt i with
    | .ok v => (.ok v, i + 1)
    | .error e =>
        if pred e then retryGo pred attempt fuel (i + 1) else (.error e, i + 1)

/-- The decorated call with `stop_after_attempt maxAttempts`. -/
def tenacityCall (pred : Exc → Bool) (maxAttempts : Nat)
    (attempt : Nat → Except Exc α) : Except Exc α × Nat :=
  retryGo pred attempt (maxAttempts - 1) 0

/-! ## Azure DevOps client (`azure_devops/client.py`) -/

/-- Outcome of one underlying `wit_client.get_work_item` call: a mapped
work item, a `None` response, or a raised exception. -/
inductive WitFetchOutcome where
  | ok (wi : WorkItem)
  | missing
  | err (e : Exc)

/-- One attempt of `AzureDevOpsClient.get_work_item` (the `try` body with
its `except` ladder, lines 78-128): a `None` response raises
`WorkItemNotFoundError`; an `AzureDevOpsServiceError` is converted by status
code (404 → not-found, 401/403 → authentication, otherwise wrapped as
`AzureDevOpsError`); `WorkItemNotFoundError` is re-raised unchanged; any
other exception is wrapped as `AzureDevOpsError`. -/
def getWorkItemAttempt (o : WitFetchOutcome) (workItemId : Int) :
    Except Exc WorkItem :=
  match o with
  | .ok wi => .ok wi
  | .missing => .error (.workItemNotFound workItemId)
  | .err e =>
    match e with
    | .azureService status m =>
        if status = 404 then .error (.workItemNotFound workItemId)
        else if status = 401 ∨ status = 403 then
          .error (.authenticationFailed
            "Invalid PAT or insufficient permissions".toList)
        else .error (.azureDevOps ("Azure DevOps API error: ".toList ++ m))
    | .workItemNotFound i => .error (.workItemNotFound i)
    | e' => .error (.azureDevOps ("Failed to fetch work item: ".toList ++ e'.str))

/-- `AzureDevOpsClient.get_work_item` with its tenacity decorator
(`retry_if_exception_type((AzureDevOpsServiceError,))`,
`stop_after_attempt(3)`); `outcomes i` is the backend's behaviour on the
`i`-th attempt. -/
def getWorkItem (outcomes : Nat → WitFetchOutcome) (workItemId : Int) :
    Except Exc WorkItem × Nat :=
  tenacityCall Exc.isAzureServiceErr 3
    (fun i => getWorkItemAttempt (outcomes i) workItemId)

/-- One attempt of `AzureDevOpsClient.add_comment` (lines 219-230): any
exception from the underlying call is wrapped as
`AzureDevOpsError("Failed to add comment: ...")`. -/
def addCommentAttempt (o : Except Exc Unit) : Except Exc Unit :=
  match o with
  | .ok _ => .ok ()
  | .error e => .error (.azureDevOps ("Failed to add comment: ".toList ++ e.str))

/-- `AzureDevOpsClient.add_comment` with its tenacity decorator. -/
def addComment (outcomes : Nat → Except Exc Unit) : Except Exc Unit × Nat :=
  tenacityCall Exc.isAzureServiceErr 3 (fun i => addCommentAttempt (outcomes i))

/-- The `except` ladder of `AzureDevOpsClient.update_work_item`
(lines 183-200): a service error yields an `Azure DevOps API error` message,
anything else a `Failed to update work item` message; both return a failure
result with an empty `updated_fields` list. -/
def updateCatch (workItemId : Int) (e : Exc) : UpdateWorkItemResult :=
  if e.isAzureServiceErr then
    ⟨false, workItemId, [], some ("Azure DevOps API error: ".toList ++ e.str)⟩
  else
    ⟨false, workItemId, [], some ("Failed to update work item: ".toList ++ e.str)⟩

/-- The `try` body of `AzureDevOpsClient.update_work_item` (lines 153-200):
apply the field patch, then — when a truthy comment is given — post the
comment via `add_comment`; on success return `updated_fields = fields`.
`patchOutcome` is the behaviour of `wit_client.update_work_item`,
`commentOutcomes i` that of the `i`-th underlying comment post. -/
def updateWorkItemBody (patchOutcome : Except Exc Unit)
    (commentOutcomes : Nat → Except Exc Unit) (workItemId : Int)
    (fields : List Str) (comment : Option Str) : UpdateWorkItemResult :=
  match patchOutcome with
  | .error e => updateCatch workItemId e
  | .ok _ =>
    match comment with
    | none => ⟨true, workItemId, fields, none⟩
    | some c =>
      if c = [] then ⟨true, workItemId, fields, none⟩
      else
        match (addComment commentOutcomes).1 with
        | .ok _ => ⟨true, workItemId, fields, none⟩
        | .error e => updateCatch workItemId e

/-- `AzureDevOpsClient.update_work_item` with its tenacity decorator: the
body never raises, so the decorated call returns the body's result after a
single attempt. -/
def updateWorkItem (patchOutcome : Except Exc Unit)
    (commentOutcomes : Nat → Except Exc Unit) (workItemId : Int)
    (fields : List Str) (comment : Option Str) :
    Except Exc UpdateWorkItemResult × Nat :=
  tenacityCall Exc.isAzureServiceErr 3
    (fun _ => .ok (updateWorkItemBody patchOutcome commentOutcomes workItemId
      fields comment))

/-! ## Claude client (`ai/claude_client.py`, `analyze_work_item`) -/

/-- Outcome of one underlying Anthropic `messages.create` call together with
the subsequent response handling: a response whose JSON parses (its field
extraction elided into the resulting `AnalysisResult`), a response on which
`_parse_json_response` raises `json.JSONDecodeError`, or a raised
exception. -/
inductive AnalyzeCallOutcome where
  | success (usage : TokenUsage) (result : AnalysisResult)
  | decodeFail (usage : TokenUsage) (detail : Str)
  | raised (e : Exc)

/-- One attempt of `ClaudeClient.analyze_work_item` (the `try` body with its
`except` ladder, lines 151-216): a decode failure is wrapped as
`ClaudeAPIError("Failed to parse JSON response from Claude: ...")`; the
Anthropic `RateLimitError` is re-raised as the application's typed
`RateLimitError` carrying the `retry_after` hint; any other Anthropic
`APIError` becomes `ClaudeAPIError("Claude API error: ...")`;
`ClaudeAPIError` passes unchanged; anything else is wrapped as
`ClaudeAPIError("Failed to analyze work item: ...")`. -/
def analyzeAttempt (o : AnalyzeCallOutcome) : Except Exc AnalysisResult :=
  match o with
  | .success _ r => .ok r
  | .decodeFail _ detail =>
      .error (.claudeApi ("Failed to parse JSON response from Claude: ".toList ++ detail))
  | .raised e =>
    match e with
    | .anthropicRateLimit ra => .error (.rateLimit ra)
    | .anthropicApi m => .error (.claudeApi ("Claude API error: ".toList ++ m))
    | .claudeApi m => .error (.claudeApi m)
    | e' => .error (.claudeApi ("Failed to analyze work item: ".toList ++ e'.str))

/-- `ClaudeClient.analyze_work_item` with its tenacity decorator
(`retry_if_exception_type((APIError,))`, `stop_after_attempt(3)`);
`outcomes i` is the behaviour of the `i`-th attempt. -/
def analyzeWorkItem (outcomes : Nat → AnalyzeCallOutcome) :
    Except Exc AnalysisResult × Nat :=
  tenacityCall Exc.isAnthropicApiErr 3 (fun i => analyzeAttempt (outcomes i))

/-! ## Workflow orchestrator (`core/workflow.py`) -/

/-- Result of a workflow execution (`WorkflowResult` in `core/workflow.py`). -/
structure WorkflowResult where
  success : Bool
  workItemId : Int
  workItem : Option WorkItem := none
  analysis : Option AnalysisResult := none
  updateResult : Option UpdateWorkItemResult := none
  errorMessage : Option Str := none
deriving DecidableEq, Repr

/-- The progress steps passed to `emit_progress` (and the `error` event
emitted by the handler). -/
inductive WfEvent where
  | fetching
  | fetchingComments
  | analyzing
  | dryRunComplete
  | updating
  | completed
  | failed
  | errored
deriving DecidableEq, Repr

/-- Behaviour of the orchestrator's collaborators during one run: the
outcome of `azure_client.get_work_item`, `azure_client.get_comments`,
`claude_client.analyze_work_item` and `azure_client.update_work_item`
(each may return or raise). -/
structure WorkflowEnv where
  fetchResult : Except Exc WorkItem
  commentsResult : Except Exc (List Str)
  analyzeResult : Except Exc AnalysisResult
  updateResult : Except Exc UpdateWorkItemResult

/-- Arguments and ambient state of one `complete_work_item` call:
the flags, whether a presenter/display sink is available, the
`settings.auto_approve` value, and the answer `presenter.confirm_changes()`
would give. -/
structure WorkflowArgs where
  workItemId : Int
  autoApprove : Bool := false
  dryRun : Bool := false
  display : Bool := true
  presenterAvailable : Bool := true
  settingsAutoApprove : Bool := false
  confirmAnswer : Bool := true

/-- Observable outcome of one orchestrator run: the returned result, the
progress events emitted, and whether `azure_client.update_work_item` was
called. -/
structure WorkflowRun where
  result : WorkflowResult
  events : List WfEvent
  updateCalled : Bool
deriving DecidableEq, Repr

/-- The `try` body of `WorkflowOrchestrator.complete_work_item`
(lines 130-219), step by step: fetch, fetch comments, analyze; on `dry_run`
emit `dry_run_complete` and return success without updating; otherwise ask
for confirmation when neither `auto_approve` flag is set and a display
presenter exists (declining cancels); otherwise emit `updating`, call
`update_work_item` and return by its `success` flag. The `Except` layer
carries any exception escaping a step. -/
def completeWorkItemBody (env : WorkflowEnv) (a : WorkflowArgs) :
    Except Exc WorkflowResult × List WfEvent × Bool :=
  match env.fetchResult with
  | .error e => (.error e, [.fetching], false)
  | .ok wi =>
    match env.commentsResult with
    | .error e => (.error e, [.fetching, .fetchingComments], false)
    | .ok _ =>
      match env.analyzeResult with
      | .error e => (.error e, [.fetching, .fetchingComments, .analyzing], false)
      | .ok an =>
        if a.dryRun then
          (.ok ⟨true, a.workItemId, some wi, some an, none, none⟩,
            [.fetching, .fetchingComments, .analyzing, .dryRunComplete], false)
        else if !a.autoApprove && !a.settingsAutoApprove && a.display &&
            a.presenterAvailable && !a.confirmAnswer then
          (.ok ⟨false, a.workItemId, some wi, some an, none,
              some "User cancelled changes".toList⟩,
            [.fetching, .fetchingComments, .analyzing], false)
        else
          match env.updateResult with
          | .error e =>
              (.error e, [.fetching, .fetchingComments, .analyzing, .updating],
                true)
          | .ok ur =>
            if ur.success then
              (.ok ⟨true, a.workItemId, some wi, some an, some ur, none⟩,
                [.fetching, .fetchingComments, .analyzing, .updating,
                  .completed], true)
            else
              (.ok ⟨false, a.workItemId, some wi, some an, some ur,
                  ur.errorMessage⟩,
                [.fetching, .fetchingComments, .analyzing, .updating,
                  .failed], true)

/-- The message built by the orchestrator's catch-all handler. -/
def workflowFailedMsg (e : Exc) : Str := "Workflow failed: ".toList ++ e.str

/-- `WorkflowOrchestrator.complete_work_item`: the `try` body wrapped by the
catch-all `except Exception` handler (lines 221-233), which emits the
`error` progress event and returns a failure `WorkflowResult`. -/
def completeWorkItem (env : WorkflowEnv) (a : WorkflowArgs) : WorkflowRun :=
  match completeWorkItemBody env a with
  | (.ok r, evs, u) => ⟨r, evs, u⟩
  | (.error e, evs, u) =>
      ⟨⟨false, a.workItemId, none, none, none, some (workflowFailedMsg e)⟩,
        evs ++ [.errored], u⟩

/-- `WorkflowOrchestrator.fetch_work_item` (lines 60-98): returns a success
result carrying the work item, and on any exception a failure result with
the `Failed to fetch work item {id}: ...` message. -/
def fetchWorkItemWf (fetchResult : Except Exc WorkItem) (workItemId : Int) :
    WorkflowResult :=
  match fetchResult with
  | .ok wi => ⟨true, workItemId, some wi, none, none, none⟩
  | .error e =>
      ⟨false, workItemId, none, none, none,
        some ("Failed to fetch work item ".toList ++ intToStr workItemId ++
          ": ".toList ++ e.str)⟩

/-! ## Response parsing (`ai/claude_client.py`, `_parse_json_response`)

`json.loads` is abstracted as a predicate `loads : Str → Bool` telling which
strings parse as JSON; a successful parse is represented by the string that
parsed (the control flow of `_parse_json_response` depends only on parse
success, never on the parsed value). -/

/-- Python `hay.find(needle, start)`: lowest index `i ≥ start` where
`needle` occurs, else `-1`. -/
def pyFind (hay needle : Str) (start : Nat) : Int :=
  match (List.range (hay.length + 1)).find?
      (fun i => decide (start ≤ i) && strStartsWith needle (hay.drop i)) with
  | some i => (i : Int)
  | none => -1

/-- Python `hay.rfind(c)` for a single character: highest index of `c`,
else `-1`. -/
def pyRfindCh (hay : Str) (c : Char) : Int :=
  match hay.reverse.findIdx? (fun a => a = c) with
  | some j => ((hay.length - 1 - j : Nat) : Int)
  | none => -1

/-- Python `s[a:b]` (step 1), with negative indices counted from the end. -/
def pySliceIx (s : Str) (a b : Int) : Str :=
  let n : Int := s.length
  let lo := if a < 0 then max 0 (n + a) else min a n
  let hi := if b < 0 then max 0 (n + b) else min b n
  (s.take hi.toNat).drop lo.toNat

/-- Python `s.strip()`: drop whitespace from both ends. -/
def pyStrip (s : Str) : Str :=
  ((s.dropWhile Char.isWhitespace).reverse.dropWhile Char.isWhitespace).reverse

/-- `json.JSONDecodeError` as raised by `_parse_json_response`: either a
candidate substring failed to decode, or no JSON-like structure was found
(`"Could not find valid JSON in response"`). -/
inductive JsonDecodeErr where
  | decodeFail (jsonStr : Str)
  | noJson
deriving DecidableEq, Repr

/-- Shape (b): the text between `"```json"` (plus 7) and the next
`"```"` — `-1`, hence the last character excluded, when there is no closing
fence — stripped (lines 238-242). -/
def extractJsonFence (t : Str) : Str :=
  let start := pyFind t "```json".toList 0 + 7
  pyStrip (pySliceIx t start (pyFind t "```".toList start.toNat))

/-- Shape (c): the text between the first `"```"` (plus 3) and the next
`"```"`, stripped (lines 243-247). -/
def extractAnyFence (t : Str) : Str :=
  let start := pyFind t "```".toList 0 + 3
  pyStrip (pySliceIx t start (pyFind t "```".toList start.toNat))

/-- Shape (d): the substring from the first `{` to the last `}`
(lines 250-254, no stripping). -/
def extractBraces (t : Str) : Str :=
  pySliceIx t (pyFind t [openBrace] 0) (pyRfindCh t closeBrace + 1)

/-- Shape (d)'s guard: `start != -1 and end > start`. -/
def bracesApplicable (t : Str) : Bool :=
  pyFind t [openBrace] 0 ≠ -1 &&
    pyRfindCh t closeBrace + 1 > pyFind t [openBrace] 0

/-- `ClaudeClient._parse_json_response` (lines 231-257), transcribed branch
by branch: try the whole body; else, when a `"```json"` marker is present,
decode that fence's content (raising its decode error on failure); else,
when any `"```"` marker is present, decode that fence's content; else,
when a brace pair exists, decode the brace substring; else raise
`Could not find valid JSON in response`. -/
def parseJsonResponse (loads : Str → Bool) (t : Str) : Except JsonDecodeErr Str :=
  if loads t then .ok t
  else if strHasSub "```json".toList t then
    let js := extractJsonFence t
    if loads js then .ok js else .error (.decodeFail js)
  else if strHasSub "```".toList t then
    let js := extractAnyFence t
    if loads js then .ok js else .error (.decodeFail js)
  else if bracesApplicable t then
    let js := extractBraces t
    if loads js then .ok js else .error (.decodeFail js)
  else .error .noJson

/-- The fallback shape the code commits to once direct parsing fails. -/
inductive FallbackShape where
  | jsonFence
  | anyFence
  | braces
  | nothing
deriving DecidableEq, Repr

/-- Which fallback shape applies to a response text: the `"```json"` fence
when present, else any `"```"` fence, else the first-`{`-to-last-`}`
substring, else none. -/
def fallbackShapeOf (t : Str) : FallbackShape :=
  if strHasSub "```json".toList t then .jsonFence
  else if strHasSub "```".toList t then .anyFence
  else if bracesApplicable t then .braces
  else .nothing

/-- Modelled from the amended specification: the parser first tries the
whole body; if that fails it commits to the single applicable fallback
shape and decodes its extraction, failing with that extraction's decode
error — later shapes are never tried. -/
def parseJsonCommitted (loads : Str → Bool) (t : Str) : Except JsonDecodeErr Str :=
  if loads t then .ok t
  else
    match fallbackShapeOf t with
    | .jsonFence =>
        let js := extractJsonFence t
        if loads js then .ok js else .error (.decodeFail js)
    | .anyFence =>
        let js := extractAnyFence t
        if loads js then .ok js else .error (.decodeFail js)
    | .braces =>
        let js := extractBraces t
        if loads js then .ok js else .error (.decodeFail js)
    | .nothing => .error .noJson

/-- The candidate strings of the four shapes, in the order the original
claim lists them (a shape contributes only when applicable). -/
def shapeCandidates (t : Str) : List Str :=
  t :: ((if strHasSub "```json".toList t then [extractJsonFence t] else []) ++
    (if strHasSub "```".toList t then [extractAnyFence t] else []) ++
    (if bracesApplicable t then [extractBraces t] else []))

/-- Modelled from the claim's words (not the code): try the four shapes in
order and let the first one that parses determine the result; fail only
when none of them parses. -/
def parseJsonFallthrough (loads : Str → Bool) (t : Str) :
    Except JsonDecodeErr Str :=
  match (shapeCandidates t).find? loads with
  | some js => .ok js
  | none => .error .noJson

/-! ## Theorems -/

theorem existingTagsOf_sep_free (tags : Option Str) :
    ∀ x ∈ existingTagsOf tags, ';' ∉ x := by
  intro x hx
  cases tags with
  | none => simp [existingTagsOf] at hx
  | some s =>
    simp only [existingTagsOf] at hx
    split at hx
    · simp at hx
    · exact mem_pySplitCh_not_mem ';' s x hx

/-- C2: when the proposed state equals the current state, the proposed
remaining work equals the current remaining work, and the `AI-Completed`
marker is already an element of the semicolon-split tag set,
`_build_update_fields` returns an empty field map. -/
theorem buildUpdateFields_no_change_empty (wi : WorkItem) (a : AnalysisResult)
    (hstate : a.suggestedStatus = wi.state)
    (hrem : wi.remainingWork = some a.suggestedRemainingWork)
    (htag : aiCompletedTag ∈ existingTagsOf wi.tags) :
    buildUpdateFields wi a = ⟨none, none, none⟩ := by
  simp [buildUpdateFields, hstate, hrem, htag]

def wiC2 : WorkItem :=
  ⟨1, [], [], "Active".toList, some "AI-Completed".toList, some 4, none⟩

def anC2 : AnalysisResult :=
  { suggestedStatus := "Active".toList, suggestedRemainingWork := 4 }

/-- C2 witness: a concrete unchanged work item yields the empty field map. -/
theorem buildUpdateFields_no_change_empty_witness :
    buildUpdateFields wiC2 anC2 = ⟨none, none, none⟩ :=
  buildUpdateFields_no_change_empty wiC2 anC2 rfl rfl (by decide)

/-- C7: when the marker tag is absent from the semicolon-split tag set, the
policy's tag field is the rejoined list, and splitting it on `;` gives the
original elements unchanged and in order followed by the marker appended
exactly once at the end. -/
theorem buildUpdateFields_appends_marker (wi : WorkItem) (a : AnalysisResult)
    (h : aiCompletedTag ∉ existingTagsOf wi.tags) :
    (buildUpdateFields wi a).tags =
      some (pyJoinCh ';' (existingTagsOf wi.tags ++ [aiCompletedTag])) ∧
    pySplitCh ';' (pyJoinCh ';' (existingTagsOf wi.tags ++ [aiCompletedTag])) =
      existingTagsOf wi.tags ++ [aiCompletedTag] := by
  constructor
  · simp [buildUpdateFields, h]
  · apply pySplitCh_pyJoinCh
    · simp
    · intro x hx
      rcases List.mem_append.mp hx with h1 | h1
      · exact existingTagsOf_sep_free wi.tags x h1
      · simp only [List.mem_singleton] at h1
        subst h1
        decide

def wiC7 : WorkItem :=
  ⟨2, [], [], "Active".toList, some "tag1;tag2".toList, none, none⟩

def anC7 : AnalysisResult := {}

/-- C7 witness: `tag1;tag2` becomes `tag1;tag2;AI-Completed` and splits
back into the original tags plus the marker. -/
theorem buildUpdateFields_appends_marker_witness :
    (buildUpdateFields wiC7 anC7).tags =
      some (pyJoinCh ';' (existingTagsOf wiC7.tags ++ [aiCompletedTag])) ∧
    pySplitCh ';' (pyJoinCh ';' (existingTagsOf wiC7.tags ++ [aiCompletedTag])) =
      existingTagsOf wiC7.tags ++ [aiCompletedTag] :=
  buildUpdateFields_appends_marker wiC7 anC7 (by decide)

/-- Modelled from the spec's tiering rule: dollars per million input
tokens, by case-insensitive substring match, higher tier as fallback. -/
def specInputRate (model : Str) : ℚ :=
  let lowered := model.map Char.toLower
  if strHasSub "opus".toList lowered then 5
  else if strHasSub "sonnet".toList lowered then 1
  else 5

/-- Modelled from the spec's tiering rule: dollars per million output
tokens. -/
def specOutputRate (model : Str) : ℚ :=
  let lowered := model.map Char.toLower
  if strHasSub "opus".toList lowered then 25
  else if strHasSub "sonnet".toList lowered then 5
  else 25

/-- C6: `calculate_cost` equals `inputTokens/1e6 * inputRate +
outputTokens/1e6 * outputRate` with the tier rates selected by substring
match (unrecognized names falling back to the opus tier); the three pinned
evaluations hold exactly, and cost is monotonically non-decreasing in each
token count for a fixed model name. -/
theorem calculateCost_spec :
    ((⟨1000000, 0⟩ : TokenUsage).calculateCost "claude-opus-4-6".toList = 5) ∧
    ((⟨0, 1000000⟩ : TokenUsage).calculateCost "claude-sonnet-4-5".toList = 5) ∧
    ((⟨1000000, 1000000⟩ : TokenUsage).calculateCost "foo".toList = 30) ∧
    (∀ (m : Str) (u : TokenUsage),
      u.calculateCost m =
        (u.inputTokens : ℚ) / 1000000 * specInputRate m +
          (u.outputTokens : ℚ) / 1000000 * specOutputRate m) ∧
    (∀ (m : Str) (i i' o : Nat), i ≤ i' →
      (⟨i, o⟩ : TokenUsage).calculateCost m ≤
        (⟨i', o⟩ : TokenUsage).calculateCost m) ∧
    (∀ (m : Str) (i o o' : Nat), o ≤ o' →
      (⟨i, o⟩ : TokenUsage).calculateCost m ≤
        (⟨i, o'⟩ : TokenUsage).calculateCost m) := by
  refine ⟨?_, ?_, ?_, ?_, ?_, ?_⟩
  · have h : strHasSub "opus".toList
        ("claude-opus-4-6".toList.map Char.toLower) = true := by decide
    simp only [TokenUsage.calculateCost, h, if_true]
    norm_num
  · have h1 : strHasSub "opus".toList
        ("claude-sonnet-4-5".toList.map Char.toLower) = false := by decide
    have h2 : strHasSub "sonnet".toList
        ("claude-sonnet-4-5".toList.map Char.toLower) = true := by decide
    simp only [TokenUsage.calculateCost, h1, h2, if_true, if_false]
    norm_num
  · have h1 : strHasSub "opus".toList ("foo".toList.map Char.toLower) = false := by
      decide
    have h2 : strHasSub "sonnet".toList ("foo".toList.map Char.toLower) = false := by
      decide
    simp only [TokenUsage.calculateCost, h1, h2, if_false]
    norm_num
  · intro m u
    simp only [TokenUsage.calculateCost, specInputRate, specOutputRate]
    split_ifs <;> ring
  · intro m i i' o h
    have hc : (i : ℚ) ≤ (i' : ℚ) := by exact_mod_cast h
    simp only [TokenUsage.calculateCost]
    split_ifs <;> gcongr
  · intro m i o o' h
    have hc : (o : ℚ) ≤ (o' : ℚ) := by exact_mod_cast h
    simp only [TokenUsage.calculateCost]
    split_ifs <;> gcongr

/-- C6 witness: monotonicity applied at a concrete unrecognized model. -/
theorem calculateCost_spec_witness :
    (⟨3, 7⟩ : TokenUsage).calculateCost "foo".toList ≤
      (⟨4, 7⟩ : TokenUsage).calculateCost "foo".toList :=
  calculateCost_spec.2.2.2.2.1 "foo".toList 3 4 7 (by decide)

def loadsC3 : Str → Bool := fun s => s == "\x7b\"a\":1\x7d".toList

def respC3 : Str := "```json\nnot json\n```\n\x7b\"a\":1\x7d".toList

/-- C3 counterexample: on a response whose `json`-tagged fence does not
parse but whose first-`\x7b`-to-last-`\x7d` substring does, the code fails with
the fence's decode error while the claimed first-successful-shape semantics
would succeed with the brace substring. -/
theorem parseJsonResponse_not_fallthrough :
    parseJsonResponse loadsC3 respC3 =
      .error (.decodeFail "not json".toList) ∧
    parseJsonFallthrough loadsC3 respC3 = .ok "\x7b\"a\":1\x7d".toList :=
  ⟨rfl, rfl⟩

/-- C3 amended: the parser tries the whole body first; if that fails it
commits to the single applicable fallback shape (`json` fence, else any
fence, else brace substring) and fails with that shape's decode error
rather than trying later shapes; with no applicable shape it fails with
the `Could not find valid JSON` error. -/
theorem parseJsonResponse_eq_committed (loads : Str → Bool) (t : Str) :
    parseJsonResponse loads t = parseJsonCommitted loads t := by
  simp only [parseJsonResponse, parseJsonCommitted, fallbackShapeOf]
  split_ifs <;> rfl

theorem retryGo_snd_eq_one (pred : Exc → Bool) (attempt : Nat → Except Exc α)
    (fuel i : Nat) (h : ∀ e, attempt i = .error e → pred e = false) :
    (retryGo pred attempt fuel i).2 = i + 1 := by
  cases fuel with
  | zero => rfl
  | succ n =>
    simp only [retryGo]
    cases ha : attempt i with
    | ok v => rfl
    | error e => simp [h e ha]

theorem getWorkItemAttempt_no_service_raise (o : WitFetchOutcome)
    (workItemId : Int) :
    ∀ e, getWorkItemAttempt o workItemId = .error e →
      e.isAzureServiceErr = false := by
  intro e he
  cases o with
  | ok wi => simp [getWorkItemAttempt] at he
  | missing =>
    simp only [getWorkItemAttempt, Except.error.injEq] at he
    subst he
    rfl
  | err ex =>
    cases ex <;>
      simp only [getWorkItemAttempt, Except.error.injEq] at he <;>
      try (subst he; rfl)
    split_ifs at he <;>
      (simp only [Except.error.injEq] at he; subst he; rfl)

def wiC4 : WorkItem := ⟨7, [], [], [], none, none, none⟩

def failingOutcomesC4 : Nat → WitFetchOutcome := fun i =>
  if i = 0 then .err (.azureService 500 "backend unavailable".toList)
  else .ok wiC4

/-- C4: the tenacity predicate of `get_work_item` watches for
`AzureDevOpsServiceError`, but the body converts every such error before it
reaches the decorator, so every call makes exactly one underlying attempt —
in particular, a transient 500 on the first attempt is raised as a
converted `AzureDevOpsError` (not unchanged, and never retried) even though
the second attempt would have succeeded. -/
theorem getWorkItem_never_retries :
    (∀ (outcomes : Nat → WitFetchOutcome) (workItemId : Int),
      (getWorkItem outcomes workItemId).2 = 1) ∧
    getWorkItem failingOutcomesC4 7 =
      (.error (.azureDevOps ("Azure DevOps API error: ".toList ++
        "backend unavailable".toList)), 1) ∧
    getWorkItemAttempt (failingOutcomesC4 1) 7 = .ok wiC4 := by
  refine ⟨?_, rfl, rfl⟩
  intro outcomes workItemId
  have h := retryGo_snd_eq_one Exc.isAzureServiceErr
    (fun i => getWorkItemAttempt (outcomes i) workItemId) 2 0
    (fun e he => getWorkItemAttempt_no_service_raise (outcomes 0) workItemId e he)
  simpa [getWorkItem, tenacityCall] using h

/-- C9: a rate-limit error from the LLM API is mapped to the application's
typed `RateLimitError` (carrying the retry-after hint) before the retry
decorator sees it; the decorator's predicate does not match it, so the call
fails after exactly one attempt. -/
theorem analyzeWorkItem_rate_limit_fails_fast
    (outcomes : Nat → AnalyzeCallOutcome) (ra : Option Nat)
    (h : outcomes 0 = .raised (.anthropicRateLimit ra)) :
    analyzeWorkItem outcomes = (.error (.rateLimit ra), 1) := by
  simp [analyzeWorkItem, tenacityCall, retryGo, h, analyzeAttempt,
    Exc.isAnthropicApiErr]

/-- C9 witness: a call rate-limited on its first attempt (hint 30s) fails
at once with the typed error. -/
theorem analyzeWorkItem_rate_limit_fails_fast_witness :
    analyzeWorkItem (fun _ => .raised (.anthropicRateLimit (some 30))) =
      (.error (.rateLimit (some 30)), 1) :=
  analyzeWorkItem_rate_limit_fails_fast _ (some 30) rfl

/-- C10: when the field patch succeeds but the subsequent comment post
fails, `update_work_item` does not raise: it returns a failure result with
an empty `updated_fields` list and the comment failure wrapped into
`error_message`, even though the patch was already applied. -/
theorem updateWorkItem_comment_failure
    (commentOutcomes : Nat → Except Exc Unit) (workItemId : Int)
    (fields : List Str) (c : Str) (e : Exc)
    (hc : c ≠ []) (hfail : commentOutcomes 0 = .error e) :
    updateWorkItem (.ok ()) commentOutcomes workItemId fields (some c) =
      (.ok ⟨false, workItemId, [],
        some ("Failed to update work item: ".toList ++
          "Failed to add comment: ".toList ++ e.str)⟩, 1) := by
  simp [updateWorkItem, tenacityCall, retryGo, updateWorkItemBody, hc,
    addComment, addCommentAttempt, hfail, updateCatch, Exc.isAzureServiceErr,
    Exc.str]

def commentOutcomesC10 : Nat → Except Exc Unit := fun _ =>
  .error (.azureService 503 "comment endpoint down".toList)

/-- C10 witness: a concrete run whose patch succeeds and whose comment post
raises a 503 returns the wrapped failure with no updated field names. -/
theorem updateWorkItem_comment_failure_witness :
    updateWorkItem (.ok ()) commentOutcomesC10 9 ["System.State".toList]
        (some "AI Analysis".toList) =
      (.ok ⟨false, 9, [],
        some ("Failed to update work item: ".toList ++
          "Failed to add comment: ".toList ++
          (Exc.azureService 503 "comment endpoint down".toList).str)⟩, 1) :=
  updateWorkItem_comment_failure commentOutcomesC10 9 ["System.State".toList]
    "AI Analysis".toList (.azureService 503 "comment endpoint down".toList)
    (by decide) rfl

/-- C1: the orchestrator is a total function of its collaborators'
behaviour — an exception escaping any step (fetch, comment fetch, analysis,
update) is caught by the catch-all handler, which appends the `error`
progress event and returns `success = false` with the
`Workflow failed: ...` message; `fetch_work_item` likewise returns a
failure result instead of raising. -/
theorem workflow_normalizes_exceptions :
    (∀ (env : WorkflowEnv) (a : WorkflowArgs) (e : Exc),
      env.fetchResult = .error e →
      completeWorkItem env a =
        ⟨⟨false, a.workItemId, none, none, none, some (workflowFailedMsg e)⟩,
          [.fetching, .errored], false⟩) ∧
    (∀ (env : WorkflowEnv) (a : WorkflowArgs) (wi : WorkItem) (e : Exc),
      env.fetchResult = .ok wi → env.commentsResult = .error e →
      completeWorkItem env a =
        ⟨⟨false, a.workItemId, none, none, none, some (workflowFailedMsg e)⟩,
          [.fetching, .fetchingComments, .errored], false⟩) ∧
    (∀ (env : WorkflowEnv) (a : WorkflowArgs) (wi : WorkItem) (cs : List Str)
        (e : Exc),
      env.fetchResult = .ok wi → env.commentsResult = .ok cs →
      env.analyzeResult = .error e →
      completeWorkItem env a =
        ⟨⟨false, a.workItemId, none, none, none, some (workflowFailedMsg e)⟩,
          [.fetching, .fetchingComments, .analyzing, .errored], false⟩) ∧
    (∀ (env : WorkflowEnv) (a : WorkflowArgs) (wi : WorkItem) (cs : List Str)
        (an : AnalysisResult) (e : Exc),
      env.fetchResult = .ok wi → env.commentsResult = .ok cs →
      env.analyzeResult = .ok an → a.dryRun = false →
      (!a.autoApprove && !a.settingsAutoApprove && a.display &&
        a.presenterAvailable && !a.confirmAnswer) = false →
      env.updateResult = .error e →
      completeWorkItem env a =
        ⟨⟨false, a.workItemId, none, none, none, some (workflowFailedMsg e)⟩,
          [.fetching, .fetchingComments, .analyzing, .updating, .errored],
          true⟩) ∧
    (∀ (fr : Except Exc WorkItem) (workItemId : Int) (e : Exc),
      fr = .error e →
      fetchWorkItemWf fr workItemId =
        ⟨false, workItemId, none, none, none,
          some ("Failed to fetch work item ".toList ++ intToStr workItemId ++
            ": ".toList ++ e.str)⟩) := by
  refine ⟨?_, ?_, ?_, ?_, ?_⟩
  · intro env a e h
    simp [completeWorkItem, completeWorkItemBody, h]
  · intro env a wi e h1 h2
    simp [completeWorkItem, completeWorkItemBody, h1, h2]
  · intro env a wi cs e h1 h2 h3
    simp [completeWorkItem, completeWorkItemBody, h1, h2, h3]
  · intro env a wi cs an e h1 h2 h3 hdry hconf h4
    simp [completeWorkItem, completeWorkItemBody, h1, h2, h3, hdry, hconf, h4]
  · intro fr workItemId e h
    simp [fetchWorkItemWf, h]

def envC1 : WorkflowEnv :=
  ⟨.error (.azureService 500 "boom".toList), .ok [], .ok {},
    .ok ⟨true, 1, [], none⟩⟩

def argsC1 : WorkflowArgs := { workItemId := 1 }

/-- C1 witness: a concrete run whose fetch raises yields the normalized
failure result and the `error` event. -/
theorem workflow_normalizes_exceptions_witness :
    completeWorkItem envC1 argsC1 =
      ⟨⟨false, 1, none, none, none,
          some (workflowFailedMsg (.azureService 500 "boom".toList))⟩,
        [.fetching, .errored], false⟩ :=
  workflow_normalizes_exceptions.1 envC1 argsC1
    (.azureService 500 "boom".toList) rfl

/-- C5 amended: with `dry_run` false and no auto-approval, a decline
through an available display presenter terminates the run with
`success = false`, `errorMessage = "User cancelled changes"`, both
`work_item` and `analysis` populated, and no update call; but when no
interactive sink is available (web mode, `display = false`) the
orchestrator logs and proceeds with the update rather than terminating. -/
theorem workflow_confirmation_behaviour :
    (∀ (env : WorkflowEnv) (a : WorkflowArgs) (wi : WorkItem) (cs : List Str)
        (an : AnalysisResult),
      env.fetchResult = .ok wi → env.commentsResult = .ok cs →
      env.analyzeResult = .ok an → a.dryRun = false → a.autoApprove = false →
      a.settingsAutoApprove = false → a.display = true →
      a.presenterAvailable = true → a.confirmAnswer = false →
      completeWorkItem env a =
        ⟨⟨false, a.workItemId, some wi, some an, none,
            some "User cancelled changes".toList⟩,
          [.fetching, .fetchingComments, .analyzing], false⟩) ∧
    (∀ (env : WorkflowEnv) (a : WorkflowArgs) (wi : WorkItem) (cs : List Str)
        (an : AnalysisResult) (ur : UpdateWorkItemResult),
      env.fetchResult = .ok wi → env.commentsResult = .ok cs →
      env.analyzeResult = .ok an → a.dryRun = false → a.autoApprove = false →
      a.settingsAutoApprove = false → a.display = false →
      env.updateResult = .ok ur → ur.success = true →
      completeWorkItem env a =
        ⟨⟨true, a.workItemId, some wi, some an, some ur, none⟩,
          [.fetching, .fetchingComments, .analyzing, .updating, .completed],
          true⟩) := by
  constructor
  · intro env a wi cs an h1 h2 h3 hdry hauto hsauto hdisp hpres hconf
    simp [completeWorkItem, completeWorkItemBody, h1, h2, h3, hdry, hauto,
      hsauto, hdisp, hpres, hconf]
  · intro env a wi cs an ur h1 h2 h3 hdry hauto hsauto hdisp h4 hsucc
    simp [completeWorkItem, completeWorkItemBody, h1, h2, h3, hdry, hauto,
      hsauto, hdisp, h4, hsucc]

def wiC5 : WorkItem := ⟨11, [], [], "Active".toList, none, some 2, none⟩

def anC5 : AnalysisResult := { suggestedStatus := "Resolved".toList }

def urC5 : UpdateWorkItemResult := ⟨true, 11, ["System.State".toList], none⟩

def envC5 : WorkflowEnv := ⟨.ok wiC5, .ok [], .ok anC5, .ok urC5⟩

def argsC5web : WorkflowArgs :=
  { workItemId := 11, autoApprove := false, dryRun := false, display := false,
    presenterAvailable := false, settingsAutoApprove := false,
    confirmAnswer := false }

/-- C5 counterexample: in web mode (no interactive confirmation sink,
auto-approve unset) the run does not terminate with
`"User cancelled changes"` — it calls the update and succeeds. -/
theorem workflow_web_mode_proceeds :
    (completeWorkItem envC5 argsC5web).updateCalled = true ∧
    (completeWorkItem envC5 argsC5web).result.success = true ∧
    (completeWorkItem envC5 argsC5web).result.errorMessage = none :=
  ⟨rfl, rfl, rfl⟩

def argsC5decline : WorkflowArgs :=
  { workItemId := 11, autoApprove := false, dryRun := false, display := true,
    presenterAvailable := true, settingsAutoApprove := false,
    confirmAnswer := false }

/-- C5 witness: a concrete declined confirmation cancels the run with no
update call. -/
theorem workflow_confirmation_behaviour_witness :
    completeWorkItem envC5 argsC5decline =
      ⟨⟨false, 11, some wiC5, some anC5, none,
          some "User cancelled changes".toList⟩,
        [.fetching, .fetchingComments, .analyzing], false⟩ :=
  workflow_confirmation_behaviour.1 envC5 argsC5decline wiC5 [] anC5
    rfl rfl rfl rfl rfl rfl rfl rfl rfl

/-- C8: with `dry_run` set and fetch/comments/analysis succeeding, the run
emits `dry_run_complete` and returns success with `work_item` and
`analysis` populated, no update-outcome field, and no update call. -/
theorem workflow_dry_run (env : WorkflowEnv) (a : WorkflowArgs)
    (wi : WorkItem) (cs : List Str) (an : AnalysisResult)
    (h1 : env.fetchResult = .ok wi) (h2 : env.commentsResult = .ok cs)
    (h3 : env.analyzeResult = .ok an) (hdry : a.dryRun = true) :
    completeWorkItem env a =
      ⟨⟨true, a.workItemId, some wi, some an, none, none⟩,
        [.fetching, .fetchingComments, .analyzing, .dryRunComplete], false⟩ := by
  simp [completeWorkItem, completeWorkItemBody, h1, h2, h3, hdry]

def wiC8 : WorkItem := ⟨21, [], [], "Active".toList, none, some 3, none⟩

def anC8 : AnalysisResult := { suggestedRemainingWork := 1 }

def envC8 : WorkflowEnv :=
  ⟨.ok wiC8, .ok [], .ok anC8, .ok ⟨true, 21, [], none⟩⟩

def argsC8 : WorkflowArgs := { workItemId := 21, dryRun := true }

/-- C8 witness: a concrete dry run terminates successfully without
updating. -/
theorem workflow_dry_run_witness :
    completeWorkItem envC8 argsC8 =
      ⟨⟨true, 21, some wiC8, some anC8, none, none⟩,
        [.fetching, .fetchingComments, .analyzing, .dryRunComplete], false⟩ :=
  workflow_dry_run envC8 argsC8 wiC8 [] anC8 rfl rfl rfl rfl
